import Mathlib

/-!
Verification of the GV-city_designer procedural city generator.

This file shallowly embeds the city-generation core (road generation,
park/fountain generation, automatic and interactive building placement,
traffic spawning and per-tick movement) and proves the behavioural
properties claimed by the specification.

Embedding conventions:
- C++ `int` values are embedded as `Int`; C++ `float`/`double` values are
  embedded as `ℚ` (exact arithmetic; the properties proved are structural
  and do not depend on rounding).
- `std::sqrt` has no exact rational counterpart; where the source compares
  `sqrt(e) < c` with both sides nonnegative the embedding compares
  `e < c^2`, which is equivalent over the reals.  Where a square root value
  itself is stored or folded (the placement validator's park radius, car
  velocity normalisation) the square root is abstracted as an explicit
  function parameter `rsqrt : ℚ → ℚ`; the claims proved do not depend on
  its values.
- random number generators are embedded as explicit draw streams passed as
  arguments (`Nat → ℚ` for `dist01`-style real draws in `[0,1)`,
  `Nat → Nat` for index draws reduced modulo the distribution size,
  `Nat → Point` for drawn positions); the claims quantify over all streams.
- C++ integer division truncates; Lean's `Int` division is Euclidean.  The
  two agree on a nonnegative dividend and positive divisor, which is the
  only regime the proved statements exercise.
- fallible code is embedded as `Option`: grid road generation divides by
  `layoutSize`, so `layoutSize = 0` (undefined behaviour / crash in C++)
  is embedded as `none`.
-/

namespace CityDesigner

/-- A 2D integer pixel coordinate (struct `Point` of `algorithms.h`). -/
structure Point where
  x : Int
  y : Int
deriving DecidableEq, Repr

/-- Modelled from the spec: the body of `bresenhamLine` (`algorithms.cpp`) is
not part of the provided sources, only its declaration in `algorithms.h`.
Following spec section 4.1, this is the integer-only all-octant Bresenham
line: an accumulated error term, one step per iteration, both endpoints
included.  The worker carries the target, the (fixed) error increments
`dx ≥ 0` and `dy ≤ 0`, the step directions and the running error; `fuel`
bounds the iteration count. -/
def bresenhamAux (x1 y1 dx dy sx sy : Int) : Nat → Int → Int → Int → List Point
  | 0, x, y, _ => [⟨x, y⟩]
  | fuel + 1, x, y, err =>
    if x = x1 ∧ y = y1 then [⟨x, y⟩]
    else
      Point.mk x y ::
        bresenhamAux x1 y1 dx dy sx sy fuel
          (if dy ≤ 2 * err then x + sx else x)
          (if 2 * err ≤ dx then y + sy else y)
          (err + (if dy ≤ 2 * err then dy else 0) + (if 2 * err ≤ dx then dx else 0))

/-- Modelled from the spec: `bresenhamLine` of `algorithms.h` (spec 4.1),
the ordered 8-connected integer line from `(x0, y0)` to `(x1, y1)`. -/
def bresenhamLine (x0 y0 x1 y1 : Int) : List Point :=
  let dx : Nat := (x1 - x0).natAbs
  let dy : Nat := (y1 - y0).natAbs
  let sx : Int := if x0 < x1 then 1 else -1
  let sy : Int := if y0 < y1 then 1 else -1
  bresenhamAux x1 y1 (dx : Int) (-(dy : Int)) sx sy (dx + dy + 1) x0 y0 ((dx : Int) - (dy : Int))

/-- Modelled from the spec: worker for `midpointCircle` (`algorithms.cpp` is
not part of the provided sources).  One octant is generated with the
integer decision variable and reflected into the other seven (spec 4.1). -/
def midpointAux (cx cy : Int) : Nat → Int → Int → Int → List Point
  | 0, _, _, _ => []
  | fuel + 1, x, y, d =>
    if y < x then []
    else
      [Point.mk (cx + x) (cy + y), Point.mk (cx - x) (cy + y),
       Point.mk (cx + x) (cy - y), Point.mk (cx - x) (cy - y),
       Point.mk (cx + y) (cy + x), Point.mk (cx - y) (cy + x),
       Point.mk (cx + y) (cy - x), Point.mk (cx - y) (cy - x)]
      ++ midpointAux cx cy fuel (x + 1)
           (if d < 0 then y else y - 1)
           (if d < 0 then d + 2 * x + 3 else d + 2 * (x - y) + 5)

/-- Modelled from the spec: `midpointCircle` of `algorithms.h` (spec 4.1),
the rasterized boundary of the circle with the given integer center and
radius; radius `≤ 0` yields the empty sequence. -/
def midpointCircle (cx cy r : Int) : List Point :=
  if r ≤ 0 then [] else midpointAux cx cy (r.toNat + 1) 0 r (1 - r)

/-- A road: Bresenham point sequence plus a cosmetic width
(struct `Road` of `road_generator.h`). -/
structure Road where
  points : List Point
  width : Int
deriving DecidableEq, Repr

/-- Building classification (`BuildingType` of `city_generator.h`). -/
inductive BuildingType
  | LOW_RISE
  | MID_RISE
  | HIGH_RISE
deriving DecidableEq, Repr

/-- A building footprint plus height and type
(struct `Building` of `city_generator.h`). -/
structure Building where
  x : ℚ
  y : ℚ
  width : ℚ
  depth : ℚ
  height : ℚ
  type : BuildingType
deriving DecidableEq, Repr

/-- Road pattern selector (`RoadPattern` of `city_config.h`). -/
inductive RoadPattern
  | GRID
  | RADIAL
  | RANDOM
deriving DecidableEq, Repr

/-- Skyline distribution selector (`SkylineType` of `city_config.h`). -/
inductive SkylineType
  | LOW_RISE
  | MID_RISE
  | SKYSCRAPER
  | MIXED
deriving DecidableEq, Repr

/-- The user configuration (`CityConfig` of `city_config.h`; the cosmetic
`textureTheme` and `view3D` fields are ignored by the core and omitted;
`standardWidth`/`standardDepth` are the interactive-placement footprint
fields consumed by `building_placement_system.cpp`). -/
structure CityConfig where
  numBuildings : Nat
  layoutSize : Nat
  roadPattern : RoadPattern
  roadWidth : Int
  skylineType : SkylineType
  parkRadius : Int
  numParks : Nat
  fountainRadius : Int
  standardWidth : ℚ
  standardDepth : ℚ
deriving DecidableEq, Repr

/-- The aggregate city state (`CityData` of `city_generator.h`). -/
structure CityData where
  roads : List Road
  parks : List (List Point)
  fountain : List Point
  buildings : List Building
  isGenerated : Bool
deriving DecidableEq, Repr

/-! ## Interactive placement validator (`building_placement_system.cpp`) -/

/-- The distinct rejection reasons reported by `tryPlaceBuilding`
(one console message per failed check, in source order). -/
inductive RejectReason
  | boundary
  | road
  | park
  | fountain
  | building
deriving DecidableEq, Repr

/-- The screen-boundary check of `tryPlaceBuilding`
(`building_placement_system.cpp` lines 36-44, margin 60). -/
def boundaryBlocked (x y w d : ℚ) (W H : Int) : Bool :=
  decide (x - w / 2 < 60) || decide ((W : ℚ) - 60 < x + w / 2) ||
  decide (y - d / 2 < 60) || decide ((H : ℚ) - 60 < y + d / 2)

/-- `BuildingPlacementSystem::collidesWithRoads`: any road point inside the
footprint box expanded by the 20-unit road buffer. -/
def collidesWithRoads (x y w d : ℚ) (roads : List Road) : Bool :=
  roads.any fun road =>
    road.points.any fun p =>
      decide (x - w / 2 - 20 ≤ (p.x : ℚ)) && decide ((p.x : ℚ) ≤ x + w / 2 + 20) &&
      decide (y - d / 2 - 20 ≤ (p.y : ℚ)) && decide ((p.y : ℚ) ≤ y + d / 2 + 20)

/-- Centroid of a boundary point list (the placement code's park/fountain
center recomputation); meaningful only for nonempty lists. -/
def centroid (pts : List Point) : ℚ × ℚ :=
  (((pts.map fun p => (p.x : ℚ)).sum) / pts.length,
   ((pts.map fun p => (p.y : ℚ)).sum) / pts.length)

/-- Maximum distance from `c` to any boundary point, with the square root
abstracted as `rsqrt` (the placement code folds `std::max` over
`std::sqrt(dx*dx+dy*dy)`). -/
def maxBoundaryDist (rsqrt : ℚ → ℚ) (c : ℚ × ℚ) (pts : List Point) : ℚ :=
  pts.foldl (fun r p => max r (rsqrt (((p.x : ℚ) - c.1) ^ 2 + ((p.y : ℚ) - c.2) ^ 2))) 0

/-- The buffered-box versus circle test shared by the park and fountain
checks of `building_placement_system.cpp` (buffer 35): the closest point of
the box expanded by the buffer is compared against radius + buffer. -/
def boxCircleHit (rsqrt : ℚ → ℚ) (x y w d buffer : ℚ) (pts : List Point) : Bool :=
  let c := centroid pts
  let radius := maxBoundaryDist rsqrt c pts
  let closestX := max (x - w / 2 - buffer) (min c.1 (x + w / 2 + buffer))
  let closestY := max (y - d / 2 - buffer) (min c.2 (y + d / 2 + buffer))
  decide ((closestX - c.1) ^ 2 + (closestY - c.2) ^ 2 < (radius + buffer) ^ 2)

/-- `BuildingPlacementSystem::collidesWithParks` (35-unit buffer; empty
parks are skipped). -/
def collidesWithParks (rsqrt : ℚ → ℚ) (x y w d : ℚ) (parks : List (List Point)) : Bool :=
  parks.any fun park =>
    if park = [] then false else boxCircleHit rsqrt x y w d 35 park

/-- `BuildingPlacementSystem::collidesWithFountain` (35-unit buffer; an
empty fountain list never collides). -/
def collidesWithFountain (rsqrt : ℚ → ℚ) (x y w d : ℚ) (fountain : List Point) : Bool :=
  if fountain = [] then false else boxCircleHit rsqrt x y w d 35 fountain

/-- `BuildingPlacementSystem::collidesWithBuildings`: AABB overlap with a
25-unit buffer against every existing building. -/
def collidesWithBuildings (x y w d : ℚ) (buildings : List Building) : Bool :=
  buildings.any fun e =>
    !(decide (x + w / 2 + 25 < e.x - e.width / 2) ||
      decide (e.x + e.width / 2 < x - w / 2 - 25) ||
      decide (y + d / 2 + 25 < e.y - e.depth / 2) ||
      decide (e.y + e.depth / 2 < y - d / 2 - 25))

/-- `BuildingPlacementSystem::tryPlaceBuilding`: the five ordered checks
(boundary, road, park, fountain, building), short-circuiting at the first
failure; on success a MID_RISE building of the configured standard
footprint and fixed height 0.15 is appended.  The returned
`Option RejectReason` is `none` on success and otherwise names the check
whose console message the C++ prints; the returned list is the (possibly
extended) building list. -/
def tryPlaceBuilding (rsqrt : ℚ → ℚ) (worldX worldY : ℚ) (buildings : List Building)
    (roads : List Road) (parks : List (List Point)) (fountain : List Point)
    (cfg : CityConfig) (W H : Int) : Option RejectReason × List Building :=
  if boundaryBlocked worldX worldY cfg.standardWidth cfg.standardDepth W H then
    (some .boundary, buildings)
  else if collidesWithRoads worldX worldY cfg.standardWidth cfg.standardDepth roads then
    (some .road, buildings)
  else if collidesWithParks rsqrt worldX worldY cfg.standardWidth cfg.standardDepth parks then
    (some .park, buildings)
  else if collidesWithFountain rsqrt worldX worldY cfg.standardWidth cfg.standardDepth fountain then
    (some .fountain, buildings)
  else if collidesWithBuildings worldX worldY cfg.standardWidth cfg.standardDepth buildings then
    (some .building, buildings)
  else
    (none, buildings ++ [⟨worldX, worldY, cfg.standardWidth, cfg.standardDepth, 3 / 20, .MID_RISE⟩])

/-- C1: for every input point, configuration and city state,
`tryPlaceBuilding` performs the five checks in the order boundary (60-unit
margin), road (20-unit buffer), park (35), fountain (35), building (25),
short-circuiting at the first failure: the reported reason is exactly the
first failing check, the building list is unchanged whenever any check
fails, and when all five pass exactly one MID_RISE building of the
configured standard width/depth is appended. -/
theorem tryPlaceBuilding_spec (rsqrt : ℚ → ℚ) (wx wy : ℚ) (buildings : List Building)
    (roads : List Road) (parks : List (List Point)) (fountain : List Point)
    (cfg : CityConfig) (W H : Int) :
    (tryPlaceBuilding rsqrt wx wy buildings roads parks fountain cfg W H).2 =
      (if (tryPlaceBuilding rsqrt wx wy buildings roads parks fountain cfg W H).1 = none then
        buildings ++ [⟨wx, wy, cfg.standardWidth, cfg.standardDepth, 3 / 20, .MID_RISE⟩]
      else buildings)
    ∧ ((tryPlaceBuilding rsqrt wx wy buildings roads parks fountain cfg W H).1 = none ↔
        boundaryBlocked wx wy cfg.standardWidth cfg.standardDepth W H = false ∧
        collidesWithRoads wx wy cfg.standardWidth cfg.standardDepth roads = false ∧
        collidesWithParks rsqrt wx wy cfg.standardWidth cfg.standardDepth parks = false ∧
        collidesWithFountain rsqrt wx wy cfg.standardWidth cfg.standardDepth fountain = false ∧
        collidesWithBuildings wx wy cfg.standardWidth cfg.standardDepth buildings = false)
    ∧ ((tryPlaceBuilding rsqrt wx wy buildings roads parks fountain cfg W H).1 =
          some .boundary ↔
        boundaryBlocked wx wy cfg.standardWidth cfg.standardDepth W H = true)
    ∧ ((tryPlaceBuilding rsqrt wx wy buildings roads parks fountain cfg W H).1 = some .road ↔
        boundaryBlocked wx wy cfg.standardWidth cfg.standardDepth W H = false ∧
        collidesWithRoads wx wy cfg.standardWidth cfg.standardDepth roads = true)
    ∧ ((tryPlaceBuilding rsqrt wx wy buildings roads parks fountain cfg W H).1 = some .park ↔
        boundaryBlocked wx wy cfg.standardWidth cfg.standardDepth W H = false ∧
        collidesWithRoads wx wy cfg.standardWidth cfg.standardDepth roads = false ∧
        collidesWithParks rsqrt wx wy cfg.standardWidth cfg.standardDepth parks = true)
    ∧ ((tryPlaceBuilding rsqrt wx wy buildings roads parks fountain cfg W H).1 =
          some .fountain ↔
        boundaryBlocked wx wy cfg.standardWidth cfg.standardDepth W H = false ∧
        collidesWithRoads wx wy cfg.standardWidth cfg.standardDepth roads = false ∧
        collidesWithParks rsqrt wx wy cfg.standardWidth cfg.standardDepth parks = false ∧
        collidesWithFountain rsqrt wx wy cfg.standardWidth cfg.standardDepth fountain = true)
    ∧ ((tryPlaceBuilding rsqrt wx wy buildings roads parks fountain cfg W H).1 =
          some .building ↔
        boundaryBlocked wx wy cfg.standardWidth cfg.standardDepth W H = false ∧
        collidesWithRoads wx wy cfg.standardWidth cfg.standardDepth roads = false ∧
        collidesWithParks rsqrt wx wy cfg.standardWidth cfg.standardDepth parks = false ∧
        collidesWithFountain rsqrt wx wy cfg.standardWidth cfg.standardDepth fountain = false ∧
        collidesWithBuildings wx wy cfg.standardWidth cfg.standardDepth buildings = true) := by
  cases hb : boundaryBlocked wx wy cfg.standardWidth cfg.standardDepth W H <;>
    cases hr : collidesWithRoads wx wy cfg.standardWidth cfg.standardDepth roads <;>
      cases hp : collidesWithParks rsqrt wx wy cfg.standardWidth cfg.standardDepth parks <;>
        cases hf :
            collidesWithFountain rsqrt wx wy cfg.standardWidth cfg.standardDepth fountain <;>
          cases hbd :
              collidesWithBuildings wx wy cfg.standardWidth cfg.standardDepth buildings <;>
            simp [tryPlaceBuilding, hb, hr, hp, hf, hbd]

/-- Example city state used by the witnesses of the interactive-placement
claim: a single one-point road far from the placement point. -/
def roadC1 : Road := ⟨[⟨700, 500⟩], 8⟩

/-- Example configuration used by witnesses: default parameter values of
`city_config.h` plus a 30×30 standard interactive footprint. -/
def cfgC1 : CityConfig :=
  ⟨20, 10, .GRID, 8, .MIXED, 40, 3, 25, 30, 30⟩

/-- Witness for C1: evaluates `tryPlaceBuilding` on a concrete city. -/
theorem tryPlaceBuilding_spec_witness :
    (tryPlaceBuilding (fun _ => 0) 100 100 [] [roadC1] [] [] cfgC1 800 600).2 =
      (if (tryPlaceBuilding (fun _ => 0) 100 100 [] [roadC1] [] [] cfgC1 800 600).1 = none then
        ([] : List Building) ++
          [⟨100, 100, cfgC1.standardWidth, cfgC1.standardDepth, 3 / 20, .MID_RISE⟩]
      else [])
    ∧ ((tryPlaceBuilding (fun _ => 0) 100 100 [] [roadC1] [] [] cfgC1 800 600).1 = none ↔
        boundaryBlocked 100 100 cfgC1.standardWidth cfgC1.standardDepth 800 600 = false ∧
        collidesWithRoads 100 100 cfgC1.standardWidth cfgC1.standardDepth [roadC1] = false ∧
        collidesWithParks (fun _ => 0) 100 100 cfgC1.standardWidth cfgC1.standardDepth []
          = false ∧
        collidesWithFountain (fun _ => 0) 100 100 cfgC1.standardWidth cfgC1.standardDepth []
          = false ∧
        collidesWithBuildings 100 100 cfgC1.standardWidth cfgC1.standardDepth [] = false)
    ∧ ((tryPlaceBuilding (fun _ => 0) 100 100 [] [roadC1] [] [] cfgC1 800 600).1 =
          some .boundary ↔
        boundaryBlocked 100 100 cfgC1.standardWidth cfgC1.standardDepth 800 600 = true)
    ∧ ((tryPlaceBuilding (fun _ => 0) 100 100 [] [roadC1] [] [] cfgC1 800 600).1 =
          some .road ↔
        boundaryBlocked 100 100 cfgC1.standardWidth cfgC1.standardDepth 800 600 = false ∧
        collidesWithRoads 100 100 cfgC1.standardWidth cfgC1.standardDepth [roadC1] = true)
    ∧ ((tryPlaceBuilding (fun _ => 0) 100 100 [] [roadC1] [] [] cfgC1 800 600).1 =
          some .park ↔
        boundaryBlocked 100 100 cfgC1.standardWidth cfgC1.standardDepth 800 600 = false ∧
        collidesWithRoads 100 100 cfgC1.standardWidth cfgC1.standardDepth [roadC1] = false ∧
        collidesWithParks (fun _ => 0) 100 100 cfgC1.standardWidth cfgC1.standardDepth []
          = true)
    ∧ ((tryPlaceBuilding (fun _ => 0) 100 100 [] [roadC1] [] [] cfgC1 800 600).1 =
          some .fountain ↔
        boundaryBlocked 100 100 cfgC1.standardWidth cfgC1.standardDepth 800 600 = false ∧
        collidesWithRoads 100 100 cfgC1.standardWidth cfgC1.standardDepth [roadC1] = false ∧
        collidesWithParks (fun _ => 0) 100 100 cfgC1.standardWidth cfgC1.standardDepth []
          = false ∧
        collidesWithFountain (fun _ => 0) 100 100 cfgC1.standardWidth cfgC1.standardDepth []
          = true)
    ∧ ((tryPlaceBuilding (fun _ => 0) 100 100 [] [roadC1] [] [] cfgC1 800 600).1 =
          some .building ↔
        boundaryBlocked 100 100 cfgC1.standardWidth cfgC1.standardDepth 800 600 = false ∧
        collidesWithRoads 100 100 cfgC1.standardWidth cfgC1.standardDepth [roadC1] = false ∧
        collidesWithParks (fun _ => 0) 100 100 cfgC1.standardWidth cfgC1.standardDepth []
          = false ∧
        collidesWithFountain (fun _ => 0) 100 100 cfgC1.standardWidth cfgC1.standardDepth []
          = false ∧
        collidesWithBuildings 100 100 cfgC1.standardWidth cfgC1.standardDepth [] = true) :=
  tryPlaceBuilding_spec (fun _ => 0) 100 100 [] [roadC1] [] [] cfgC1 800 600

/-! ## Road network generation (`road_generator.cpp`) -/

/-- The grid spacing `(screenWidth - 2 * margin) / layoutSize` of
`RoadGenerator::generateGridRoads` (margin 50).  Note the spacing is
derived from the canvas *width* and used for both axes. -/
def spacingOf (W : Int) (N : Nat) : Int := (W - 2 * 50) / (N : Int)

/-- Default road used with `List.getD` when indexing road lists. -/
def dummyRoad : Road := ⟨[], 0⟩

/-- `RoadGenerator::generateGridRoads`: `layoutSize + 1` horizontal roads
followed by `layoutSize + 1` vertical roads.  The C++ computes
`spacing = (screenWidth - 2*margin) / layoutSize`, an integer division by
`layoutSize`; `layoutSize = 0` is a division by zero (a crash), embedded
as `none`. -/
def generateGridRoads (N : Nat) (W H roadWidth : Int) : Option (List Road) :=
  if N = 0 then none
  else
    some
      (((List.range (N + 1)).map fun i =>
          ⟨bresenhamLine 50 (50 + (i : Int) * spacingOf W N) (W - 50)
             (50 + (i : Int) * spacingOf W N), roadWidth⟩) ++
       ((List.range (N + 1)).map fun i =>
          ⟨bresenhamLine (50 + (i : Int) * spacingOf W N) 50
             (50 + (i : Int) * spacingOf W N) (H - 50), roadWidth⟩))

/-- Re-segmentation of a rasterized ring in
`RoadGenerator::generateRadialRoads`: every 8th boundary point is
connected to the point 8 further on (wrapping around). -/
def ringSegments (cps : List Point) (w : Int) : List Road :=
  (List.range ((cps.length + 7) / 8)).map fun k =>
    let p := cps.getD (8 * k) ⟨0, 0⟩
    let q := cps.getD ((8 * k + 8) % cps.length) ⟨0, 0⟩
    ⟨bresenhamLine p.x p.y q.x q.y, w⟩

/-- `RoadGenerator::generateRadialRoads`: `layoutSize` spokes from the
canvas center plus `layoutSize / 2` re-segmented rings.  The spoke
endpoint `center + maxRadius * (cos θ, sin θ)` is computed with
floating-point trigonometry in the C++ and is abstracted here as the
`spokeEnd` stream; no claim depends on its values. -/
def generateRadialRoads (spokeEnd : Nat → Point) (N : Nat) (W H w : Int) : List Road :=
  let cx := W / 2
  let cy := H / 2
  let maxRadius := min W H / 2 - 50
  let numRings := N / 2
  ((List.range N).map fun i => ⟨bresenhamLine cx cy (spokeEnd i).x (spokeEnd i).y, w⟩) ++
    (List.range numRings).flatMap fun rI =>
      ringSegments (midpointCircle cx cy ((maxRadius * ((rI : Int) + 1)) / (numRings : Int))) w

/-- The node pool of `RoadGenerator::generateRandomRoads`: `2 * layoutSize`
randomly drawn interior points (the `randomPoint` draws, abstracted as the
`nodePos` stream) plus four screen-edge points inset 100 units from the
corners. -/
def randomNodes (nodePos : Nat → Point) (N : Nat) (W H : Int) : List Point :=
  (List.range (2 * N)).map nodePos ++
    [⟨100, 100⟩, ⟨W - 100, 100⟩, ⟨100, H - 100⟩, ⟨W - 100, H - 100⟩]

/-- `RoadGenerator::generateRandomRoads`: `3 * layoutSize` iterations, each
drawing two node indices (`uniform_int_distribution(0, size-1)`, embedded
as the draw reduced modulo the pool size); an iteration whose two indices
are equal adds no road and is not retried. -/
def generateRandomRoads (nodePos : Nat → Point) (ndraws : Nat → Nat) (N : Nat) (W H w : Int) :
    List Road :=
  let nodes := randomNodes nodePos N W H
  (List.range (3 * N)).filterMap fun i =>
    let idx1 := ndraws (2 * i) % nodes.length
    let idx2 := ndraws (2 * i + 1) % nodes.length
    if idx1 = idx2 then none
    else
      some ⟨bresenhamLine (nodes.getD idx1 ⟨0, 0⟩).x (nodes.getD idx1 ⟨0, 0⟩).y
              (nodes.getD idx2 ⟨0, 0⟩).x (nodes.getD idx2 ⟨0, 0⟩).y, w⟩

/-- `RoadGenerator::generateRoads`: dispatch on the configured pattern
(the C++ `default:` case also maps to the grid generator). -/
def generateRoads (spokeEnd nodePos : Nat → Point) (ndraws : Nat → Nat)
    (cfg : CityConfig) (W H : Int) : Option (List Road) :=
  match cfg.roadPattern with
  | .GRID => generateGridRoads cfg.layoutSize W H cfg.roadWidth
  | .RADIAL => some (generateRadialRoads spokeEnd cfg.layoutSize W H cfg.roadWidth)
  | .RANDOM => some (generateRandomRoads nodePos ndraws cfg.layoutSize W H cfg.roadWidth)

/-! ### Bresenham characterizations used for the grid claims -/

/-- On a horizontal segment the Bresenham worker emits points of constant
`y`: with `dy = 0` and a nonnegative error term the `y`-step is never
taken (when the error term is zero the worker is already at the target
`x` and stops). -/
theorem bresenhamAux_horiz_y (x1 y D sx sy : Int) (hD : 0 ≤ D) :
    ∀ (fuel : Nat) (x : Int), (D = 0 → x = x1) →
      ∀ p ∈ bresenhamAux x1 y D 0 sx sy fuel x y D, p.y = y := by
  intro fuel
  induction fuel with
  | zero =>
    intro x _ p hp
    simp only [bresenhamAux, List.mem_singleton] at hp
    subst hp; rfl
  | succ fuel ih =>
    intro x hx p hp
    rw [bresenhamAux] at hp
    by_cases hstop : x = x1 ∧ y = y
    · rw [if_pos hstop] at hp
      simp only [List.mem_singleton] at hp
      subst hp; rfl
    · rw [if_neg hstop] at hp
      have hne : x ≠ x1 := fun h => hstop ⟨h, rfl⟩
      have hDpos : 0 < D := by
        rcases lt_or_eq_of_le hD with h | h
        · exact h
        · exact absurd (hx h.symm) hne
      have h2 : ¬ (2 * D ≤ D) := by linarith
      simp only [if_neg h2] at hp
      have h1 : (0 : Int) ≤ 2 * D := by linarith
      simp only [if_pos h1, add_zero] at hp
      rcases List.mem_cons.mp hp with hph | hpt
      · subst hph; rfl
      · exact ih _ (fun h0 => absurd h0 (by omega)) p hpt

/-- On a vertical segment the Bresenham worker emits points of constant
`x`: with `dx = 0` and a nonpositive error term the `x`-step is never
taken. -/
theorem bresenhamAux_vert_x (x y1 Dn sx sy : Int) (hD : Dn ≤ 0) :
    ∀ (fuel : Nat) (y : Int), (Dn = 0 → y = y1) →
      ∀ p ∈ bresenhamAux x y1 0 Dn sx sy fuel x y Dn, p.x = x := by
  intro fuel
  induction fuel with
  | zero =>
    intro y _ p hp
    simp only [bresenhamAux, List.mem_singleton] at hp
    subst hp; rfl
  | succ fuel ih =>
    intro y hy p hp
    rw [bresenhamAux] at hp
    by_cases hstop : x = x ∧ y = y1
    · rw [if_pos hstop] at hp
      simp only [List.mem_singleton] at hp
      subst hp; rfl
    · rw [if_neg hstop] at hp
      have hne : y ≠ y1 := fun h => hstop ⟨rfl, h⟩
      have hDneg : Dn < 0 := by
        rcases lt_or_eq_of_le hD with h | h
        · exact h
        · exact absurd (hy h) hne
      have h1 : ¬ (Dn ≤ 2 * Dn) := by linarith
      simp only [if_neg h1] at hp
      have h2 : (2 * Dn ≤ 0) := by linarith
      simp only [if_pos h2, add_zero] at hp
      rcases List.mem_cons.mp hp with hph | hpt
      · subst hph; rfl
      · exact ih _ (fun h0 => absurd h0 (by omega)) p hpt

/-- Every point of a rasterized horizontal line has the line's
`y`-coordinate. -/
theorem bresenhamLine_horiz_y (x0 x1 y : Int) :
    ∀ p ∈ bresenhamLine x0 y x1 y, p.y = y := by
  intro p hp
  simp only [bresenhamLine, sub_self, Int.natAbs_zero, Nat.cast_zero, neg_zero,
    sub_zero] at hp
  exact bresenhamAux_horiz_y x1 y _ _ _ (by omega) _ x0 (fun h0 => by omega) p hp

/-- Every point of a rasterized vertical line has the line's
`x`-coordinate. -/
theorem bresenhamLine_vert_x (x y0 y1 : Int) :
    ∀ p ∈ bresenhamLine x y0 x y1, p.x = x := by
  intro p hp
  simp only [bresenhamLine, sub_self, Int.natAbs_zero, Nat.cast_zero, zero_sub,
    zero_add] at hp
  exact bresenhamAux_vert_x x y1 _ _ _ (by omega) _ y0 (fun h0 => by omega) p hp

/-- Full characterization of the Bresenham worker on a left-to-right
horizontal segment: it emits `(x, y), (x+1, y), …, (x1, y)`. -/
theorem bresenhamAux_horiz_span (x1 y sy D : Int) (hD : 0 < D) :
    ∀ (fuel : Nat) (x : Int), x ≤ x1 → (x1 - x).toNat ≤ fuel →
      bresenhamAux x1 y D 0 1 sy fuel x y D =
        (List.range ((x1 - x).toNat + 1)).map fun k => ⟨x + (k : Int), y⟩ := by
  intro fuel
  induction fuel with
  | zero =>
    intro x hx hf
    have hx1 : x = x1 := by omega
    subst hx1
    simp [bresenhamAux, List.range_succ]
  | succ fuel ih =>
    intro x hx hf
    by_cases hxx : x = x1
    · subst hxx
      rw [bresenhamAux, if_pos ⟨rfl, rfl⟩]
      simp [List.range_succ]
    · have hlt : x < x1 := lt_of_le_of_ne hx hxx
      rw [bresenhamAux, if_neg (fun h => hxx h.1)]
      have h1 : (0 : Int) ≤ 2 * D := by linarith
      have h2 : ¬ (2 * D ≤ D) := by linarith
      simp only [if_pos h1, if_neg h2, add_zero]
      rw [ih (x + 1) (by omega) (by omega)]
      have hn : (x1 - x).toNat = (x1 - (x + 1)).toNat + 1 := by omega
      rw [hn]
      conv_rhs => rw [List.range_succ_eq_map, List.map_cons, List.map_map]
      refine List.cons_eq_cons.mpr ⟨?_, ?_⟩
      · norm_num
      · apply List.map_congr_left
        intro k _
        simp only [Function.comp_apply, Point.mk.injEq, and_true]
        push_cast
        ring

/-- Full characterization of the Bresenham worker on a top-to-bottom
vertical segment: it emits `(x, y), (x, y+1), …, (x, y1)`. -/
theorem bresenhamAux_vert_span (x y1 sx Dn : Int) (hD : Dn < 0) :
    ∀ (fuel : Nat) (y : Int), y ≤ y1 → (y1 - y).toNat ≤ fuel →
      bresenhamAux x y1 0 Dn sx 1 fuel x y Dn =
        (List.range ((y1 - y).toNat + 1)).map fun k => ⟨x, y + (k : Int)⟩ := by
  intro fuel
  induction fuel with
  | zero =>
    intro y hy hf
    have hy1 : y = y1 := by omega
    subst hy1
    simp [bresenhamAux, List.range_succ]
  | succ fuel ih =>
    intro y hy hf
    by_cases hyy : y = y1
    · subst hyy
      rw [bresenhamAux, if_pos ⟨rfl, rfl⟩]
      simp [List.range_succ]
    · have hlt : y < y1 := lt_of_le_of_ne hy hyy
      rw [bresenhamAux, if_neg (fun h => hyy h.2)]
      have h1 : ¬ (Dn ≤ 2 * Dn) := by linarith
      have h2 : (2 * Dn ≤ 0) := by linarith
      simp only [if_neg h1, if_pos h2, add_zero]
      rw [ih (y + 1) (by omega) (by omega)]
      have hn : (y1 - y).toNat = (y1 - (y + 1)).toNat + 1 := by omega
      rw [hn]
      conv_rhs => rw [List.range_succ_eq_map, List.map_cons, List.map_map]
      refine List.cons_eq_cons.mpr ⟨?_, ?_⟩
      · norm_num
      · apply List.map_congr_left
        intro k _
        simp only [Function.comp_apply, Point.mk.injEq, true_and]
        push_cast
        ring

/-- A left-to-right horizontal Bresenham line spans every integer `x` from
`x0` to `x1` at constant `y`. -/
theorem bresenhamLine_horiz_span (x0 x1 y : Int) (h : x0 ≤ x1) :
    bresenhamLine x0 y x1 y =
      (List.range ((x1 - x0).toNat + 1)).map fun k => ⟨x0 + (k : Int), y⟩ := by
  by_cases hds : x0 = x1
  · subst hds
    simp [bresenhamLine, bresenhamAux, List.range_succ]
  · have hlt : x0 < x1 := lt_of_le_of_ne h hds
    have hD : (0 : Int) < ((x1 - x0).natAbs : Int) := by omega
    simp only [bresenhamLine, sub_self, Int.natAbs_zero, Nat.cast_zero, neg_zero,
      sub_zero, if_pos hlt]
    rw [bresenhamAux_horiz_span x1 y _ _ hD _ x0 h (by omega)]

/-- A top-to-bottom vertical Bresenham line spans every integer `y` from
`y0` to `y1` at constant `x`. -/
theorem bresenhamLine_vert_span (x y0 y1 : Int) (h : y0 ≤ y1) :
    bresenhamLine x y0 x y1 =
      (List.range ((y1 - y0).toNat + 1)).map fun k => ⟨x, y0 + (k : Int)⟩ := by
  by_cases hds : y0 = y1
  · subst hds
    simp [bresenhamLine, bresenhamAux, List.range_succ]
  · have hlt : y0 < y1 := lt_of_le_of_ne h hds
    have hD : (-(((y1 - y0).natAbs : Nat) : Int)) < 0 := by omega
    simp only [bresenhamLine, sub_self, Int.natAbs_zero, Nat.cast_zero, zero_sub,
      zero_add, if_pos hlt]
    rw [bresenhamAux_vert_span x y1 _ _ hD _ y0 h (by omega)]

/-- A `filterMap` whose function succeeds on every element preserves the
length. -/
theorem length_filterMap_of_isSome {α β : Type} (f : α → Option β) :
    ∀ l : List α, (∀ a ∈ l, (f a).isSome = true) → (l.filterMap f).length = l.length := by
  intro l
  induction l with
  | nil => simp
  | cons a l ih =>
    intro h
    have ha := h a (by simp)
    cases hfa : f a with
    | none => rw [hfa] at ha; simp at ha
    | some b =>
      simp only [List.filterMap_cons, hfa, List.length_cons]
      rw [ih fun x hx => h x (by simp [hx])]

/-- C3: for every layout size `N ≥ 1`, road width and canvas bounds, grid
generation yields exactly `2(N+1)` roads: first `N+1` horizontal roads
(each road's points share one `y`), then `N+1` vertical roads (each
road's points share one `x`). -/
theorem generateGridRoads_count (N : Nat) (W H w : Int) (hN : 1 ≤ N) :
    (generateGridRoads N W H w).map List.length = some (2 * (N + 1))
    ∧ (∀ r ∈ ((generateGridRoads N W H w).getD []).take (N + 1),
        ∀ p ∈ r.points, ∀ q ∈ r.points, p.y = q.y)
    ∧ (∀ r ∈ ((generateGridRoads N W H w).getD []).drop (N + 1),
        ∀ p ∈ r.points, ∀ q ∈ r.points, p.x = q.x) := by
  have hN0 : N ≠ 0 := by omega
  refine ⟨?_, ?_, ?_⟩
  · simp [generateGridRoads, hN0]
    ring
  · intro r hr p hp q hq
    simp only [generateGridRoads, if_neg hN0, Option.getD_some] at hr
    rw [List.take_left' (by simp)] at hr
    obtain ⟨i, _, hri⟩ := List.mem_map.mp hr
    have hy := bresenhamLine_horiz_y 50 (W - 50) (50 + (i : Int) * spacingOf W N)
    rw [← hri] at hp hq
    rw [hy p hp, hy q hq]
  · intro r hr p hp q hq
    simp only [generateGridRoads, if_neg hN0, Option.getD_some] at hr
    rw [List.drop_left' (by simp)] at hr
    obtain ⟨i, _, hri⟩ := List.mem_map.mp hr
    have hx := bresenhamLine_vert_x (50 + (i : Int) * spacingOf W N) 50 (H - 50)
    rw [← hri] at hp hq
    rw [hx p hp, hx q hq]

/-- Witness for C3: the grid at layout size 1 on a 110×120 canvas. -/
theorem generateGridRoads_count_witness :
    (generateGridRoads 1 110 120 8).map List.length = some (2 * (1 + 1))
    ∧ (∀ r ∈ ((generateGridRoads 1 110 120 8).getD []).take (1 + 1),
        ∀ p ∈ r.points, ∀ q ∈ r.points, p.y = q.y)
    ∧ (∀ r ∈ ((generateGridRoads 1 110 120 8).getD []).drop (1 + 1),
        ∀ p ∈ r.points, ∀ q ∈ r.points, p.x = q.x) :=
  generateGridRoads_count 1 110 120 8 (by decide)

/-- Indexing the concatenation of two equal-length mapped ranges:
an index below `n` selects from the first part. -/
theorem getD_append_map_range_left {α : Type} (f g : Nat → α) (n i : Nat) (d : α)
    (h : i < n) :
    ((List.range n).map f ++ (List.range n).map g).getD i d = f i := by
  rw [List.getD_eq_getElem?_getD,
    List.getElem?_append_left (by simpa using h),
    List.getElem?_map, List.getElem?_range h]
  rfl

/-- Indexing the concatenation of two equal-length mapped ranges:
index `n + i` with `i < n` selects element `i` of the second part. -/
theorem getD_append_map_range_right {α : Type} (f g : Nat → α) (n i : Nat) (d : α)
    (h : i < n) :
    ((List.range n).map f ++ (List.range n).map g).getD (n + i) d = g i := by
  rw [List.getD_eq_getElem?_getD,
    List.getElem?_append_right (by simp only [List.length_map, List.length_range]; omega)]
  have hsub : n + i - ((List.range n).map f).length = i := by
    simp only [List.length_map, List.length_range]
    omega
  rw [hsub, List.getElem?_map, List.getElem?_range h]
  rfl

/-- C4 counterexample: with layout size 10 on the 800×600 canvas, the
horizontal road at index 8 does *not* lie between the margins of the
canvas height (all its points are at y = 610 > 600 - 50): grid spacing is
derived from the canvas width on both axes. -/
theorem generateGridRoads_outside_canvas_cex :
    (((generateGridRoads 10 800 600 8).getD []).getD 8 dummyRoad).points.all
      (fun p => decide ((50 : Int) ≤ p.y ∧ p.y ≤ 600 - 50)) = false := by
  decide

/-- C4 (amended): for `N ≥ 1` on a canvas with `W, H ≥ 100`, the `i`-th
horizontal road (`i ≤ N`) runs at constant `y = 50 + i * spacing` with `x`
spanning every integer from 50 to `W - 50`, and the `i`-th vertical road
(list index `N + 1 + i`) runs at constant `x = 50 + i * spacing` — which
always lies within `[50, W - 50]` — with `y` spanning every integer from
50 to `H - 50`; the spacing is `(W - 100) / N` for *both* axes, so the
horizontal roads' `y` values are not bounded by the canvas height. -/
theorem generateGridRoads_geometry (N : Nat) (W H w : Int) (i : Nat)
    (hN : 1 ≤ N) (hW : 100 ≤ W) (hH : 100 ≤ H) (hi : i ≤ N) :
    (((generateGridRoads N W H w).getD []).getD i dummyRoad).points =
        (List.range ((W - 100).toNat + 1)).map
          (fun k => ⟨50 + (k : Int), 50 + (i : Int) * spacingOf W N⟩)
    ∧ (((generateGridRoads N W H w).getD []).getD (N + 1 + i) dummyRoad).points =
        (List.range ((H - 100).toNat + 1)).map
          (fun k => ⟨50 + (i : Int) * spacingOf W N, 50 + (k : Int)⟩)
    ∧ (50 : Int) ≤ 50 + (i : Int) * spacingOf W N
    ∧ 50 + (i : Int) * spacingOf W N ≤ W - 50 := by
  have hN0 : N ≠ 0 := by omega
  have hNZ : ((N : Int)) ≠ 0 := by exact_mod_cast hN0
  have hs0 : 0 ≤ spacingOf W N := Int.ediv_nonneg (by omega) (by positivity)
  have hsc : (N : Int) * spacingOf W N ≤ W - 100 := by
    have h1 := Int.ediv_add_emod (W - 2 * 50) (N : Int)
    have h2 := Int.emod_nonneg (W - 2 * 50) hNZ
    unfold spacingOf
    linarith
  have hiN : (i : Int) ≤ (N : Int) := by exact_mod_cast hi
  have hbound : 50 + (i : Int) * spacingOf W N ≤ W - 50 := by
    have := mul_le_mul_of_nonneg_right hiN hs0
    linarith
  refine ⟨?_, ?_, by linarith [mul_nonneg (by positivity : (0:Int) ≤ (i : Int)) hs0], hbound⟩
  · simp only [generateGridRoads, if_neg hN0, Option.getD_some]
    rw [getD_append_map_range_left _ _ _ _ _ (by omega)]
    show bresenhamLine 50 (50 + (i : Int) * spacingOf W N) (W - 50)
        (50 + (i : Int) * spacingOf W N) = _
    rw [bresenhamLine_horiz_span 50 (W - 50) _ (by omega)]
    have h100 : W - 50 - 50 = W - 100 := by ring
    rw [h100]
  · simp only [generateGridRoads, if_neg hN0, Option.getD_some]
    rw [getD_append_map_range_right _ _ _ _ _ (by omega)]
    show bresenhamLine (50 + (i : Int) * spacingOf W N) 50
        (50 + (i : Int) * spacingOf W N) (H - 50) = _
    rw [bresenhamLine_vert_span _ 50 (H - 50) (by omega)]
    have h100 : H - 50 - 50 = H - 100 := by ring
    rw [h100]

/-- Witness for the amended C4: layout size 1 on a 110×120 canvas,
road pair at index 0. -/
theorem generateGridRoads_geometry_witness :
    (((generateGridRoads 1 110 120 8).getD []).getD 0 dummyRoad).points =
        (List.range (((110 : Int) - 100).toNat + 1)).map
          (fun k => ⟨50 + (k : Int), 50 + ((0 : Nat) : Int) * spacingOf 110 1⟩)
    ∧ (((generateGridRoads 1 110 120 8).getD []).getD (1 + 1 + 0) dummyRoad).points =
        (List.range (((120 : Int) - 100).toNat + 1)).map
          (fun k => ⟨50 + ((0 : Nat) : Int) * spacingOf 110 1, 50 + (k : Int)⟩)
    ∧ (50 : Int) ≤ 50 + ((0 : Nat) : Int) * spacingOf 110 1
    ∧ 50 + ((0 : Nat) : Int) * spacingOf 110 1 ≤ 110 - 50 :=
  generateGridRoads_geometry 1 110 120 8 0 (by decide) (by decide) (by decide) (by decide)

/-- C5 counterexample: with layout size 1 and a draw stream that always
produces index 0, every one of the three iterations draws two equal node
indices and is skipped, so 0 roads are produced instead of `3 * 1`. -/
theorem generateRandomRoads_cex :
    ¬ ((generateRandomRoads (fun _ => ⟨200, 200⟩) (fun _ => 0) 1 800 600 8).length
        = 3 * 1) := by
  decide

/-- C5 (amended): the node pool consists of `2N` drawn interior points
plus four screen-edge points inset 100 units (2N + 4 nodes in total);
random generation runs `3N` iterations, each adding the Bresenham line
between two *distinctly indexed* pool nodes and skipping (without retry)
any iteration whose two drawn indices coincide, so it yields at most `3N`
roads, and exactly `3N` when all drawn pairs differ. -/
theorem generateRandomRoads_spec (nodePos : Nat → Point) (ndraws : Nat → Nat) (N : Nat)
    (W H w : Int) (hN : 1 ≤ N) :
    (randomNodes nodePos N W H).length = 2 * N + 4
    ∧ (generateRandomRoads nodePos ndraws N W H w).length ≤ 3 * N
    ∧ (∀ r ∈ generateRandomRoads nodePos ndraws N W H w,
        ∃ i j : Nat, i < 2 * N + 4 ∧ j < 2 * N + 4 ∧ i ≠ j ∧
          r = ⟨bresenhamLine ((randomNodes nodePos N W H).getD i ⟨0, 0⟩).x
                 ((randomNodes nodePos N W H).getD i ⟨0, 0⟩).y
                 ((randomNodes nodePos N W H).getD j ⟨0, 0⟩).x
                 ((randomNodes nodePos N W H).getD j ⟨0, 0⟩).y, w⟩)
    ∧ ((∀ k : Nat, k < 3 * N →
          ndraws (2 * k) % (2 * N + 4) ≠ ndraws (2 * k + 1) % (2 * N + 4)) →
        (generateRandomRoads nodePos ndraws N W H w).length = 3 * N) := by
  have hlen : (randomNodes nodePos N W H).length = 2 * N + 4 := by
    simp [randomNodes]
  refine ⟨hlen, ?_, ?_, ?_⟩
  · calc (generateRandomRoads nodePos ndraws N W H w).length
        ≤ (List.range (3 * N)).length := List.length_filterMap_le _ _
      _ = 3 * N := by simp
  · intro r hr
    simp only [generateRandomRoads, hlen] at hr
    obtain ⟨a, _, ha⟩ := List.mem_filterMap.mp hr
    by_cases heq : ndraws (2 * a) % (2 * N + 4) = ndraws (2 * a + 1) % (2 * N + 4)
    · rw [if_pos heq] at ha
      exact absurd ha (by simp)
    · rw [if_neg heq] at ha
      refine ⟨ndraws (2 * a) % (2 * N + 4), ndraws (2 * a + 1) % (2 * N + 4),
        Nat.mod_lt _ (by omega), Nat.mod_lt _ (by omega), heq, ?_⟩
      exact (Option.some_injective _ ha).symm
  · intro hall
    simp only [generateRandomRoads, hlen]
    rw [length_filterMap_of_isSome]
    · simp
    · intro a haa
      have haN : a < 3 * N := List.mem_range.mp haa
      rw [if_neg (hall a haN)]
      simp

/-- Witness for the amended C5: layout size 1 with an identity-like draw
stream. -/
theorem generateRandomRoads_spec_witness :
    (randomNodes (fun _ => ⟨200, 200⟩) 1 800 600).length = 2 * 1 + 4
    ∧ (generateRandomRoads (fun _ => ⟨200, 200⟩) (fun k => k) 1 800 600 8).length ≤ 3 * 1
    ∧ (∀ r ∈ generateRandomRoads (fun _ => ⟨200, 200⟩) (fun k => k) 1 800 600 8,
        ∃ i j : Nat, i < 2 * 1 + 4 ∧ j < 2 * 1 + 4 ∧ i ≠ j ∧
          r = ⟨bresenhamLine ((randomNodes (fun _ => ⟨200, 200⟩) 1 800 600).getD i ⟨0, 0⟩).x
                 ((randomNodes (fun _ => ⟨200, 200⟩) 1 800 600).getD i ⟨0, 0⟩).y
                 ((randomNodes (fun _ => ⟨200, 200⟩) 1 800 600).getD j ⟨0, 0⟩).x
                 ((randomNodes (fun _ => ⟨200, 200⟩) 1 800 600).getD j ⟨0, 0⟩).y, 8⟩)
    ∧ ((∀ k : Nat, k < 3 * 1 →
          (fun k => k) (2 * k) % (2 * 1 + 4) ≠ (fun k => k) (2 * k + 1) % (2 * 1 + 4)) →
        (generateRandomRoads (fun _ => ⟨200, 200⟩) (fun k => k) 1 800 600 8).length
          = 3 * 1) :=
  generateRandomRoads_spec (fun _ => ⟨200, 200⟩) (fun k => k) 1 800 600 8 (by decide)

/-- Configuration exhibiting the grid division-by-zero: layout size 0 with
the GRID pattern. -/
def cfgGridZero : CityConfig :=
  ⟨20, 0, .GRID, 8, .MIXED, 40, 3, 25, 30, 30⟩

/-- Configuration exercising the RADIAL pattern at layout size 0. -/
def cfgRadialZero : CityConfig :=
  ⟨20, 0, .RADIAL, 8, .MIXED, 40, 3, 25, 30, 30⟩

/-- C9 counterexample: grid road generation at layout size 0 performs the
spacing division by zero (embedded as `none`, a crash in the C++) instead
of degrading to a well-defined output. -/
theorem generateRoads_gridZero_cex :
    generateRoads (fun _ => ⟨0, 0⟩) (fun _ => ⟨0, 0⟩) (fun _ => 0) cfgGridZero 800 600
      = none := rfl

/-- C9 (amended): road generation succeeds for every pattern and canvas
whenever the layout size is at least 1, and for the radial and random
patterns even at layout size 0; only the grid pattern at layout size 0
crashes (spacing division by zero). -/
theorem generateRoads_total (spokeEnd nodePos : Nat → Point) (ndraws : Nat → Nat)
    (cfg : CityConfig) (W H : Int)
    (h : 1 ≤ cfg.layoutSize ∨ cfg.roadPattern ≠ RoadPattern.GRID) :
    (generateRoads spokeEnd nodePos ndraws cfg W H).isSome = true := by
  unfold generateRoads
  cases hpat : cfg.roadPattern with
  | GRID =>
    have hN : cfg.layoutSize ≠ 0 := by
      rcases h with h | h
      · omega
      · exact absurd hpat h
    simp [generateGridRoads, hN]
  | RADIAL => simp
  | RANDOM => simp

/-- Witness for the amended C9: radial generation at layout size 0 still
succeeds. -/
theorem generateRoads_total_witness :
    (generateRoads (fun _ => ⟨0, 0⟩) (fun _ => ⟨0, 0⟩) (fun _ => 0) cfgRadialZero
      800 600).isSome = true :=
  generateRoads_total (fun _ => ⟨0, 0⟩) (fun _ => ⟨0, 0⟩) (fun _ => 0) cfgRadialZero
    800 600 (Or.inr (by decide))

/-! ## City generation (`city_generator.cpp`) -/

/-- `CityGenerator::generateParks`: when `numParks = 0` the function
returns before anything (including the fountain) is generated; otherwise
`numParks` circles of the configured radius are rasterized at the drawn
positions (`ppos` abstracts the `uniform_int_distribution` position draws)
with no collision check of any kind, and when `fountainRadius > 0` one
extra circle at the canvas center is appended to the same park list. -/
def generateParks (cfg : CityConfig) (W H : Int) (ppos : Nat → Point) :
    List (List Point) :=
  if cfg.numParks = 0 then []
  else
    ((List.range cfg.numParks).map fun i =>
      midpointCircle (ppos i).x (ppos i).y cfg.parkRadius) ++
    (if 0 < cfg.fountainRadius then
      [midpointCircle (W / 2) (H / 2) cfg.fountainRadius]
    else [])

/-- `CityGenerator::isValidBuildingPosition`: the only check of automatic
building generation — the candidate center must be at distance ≥ 80 from
the *first* boundary point of every nonempty park.  The source compares
`sqrt(dx*dx + dy*dy) < 80`; the embedding compares squares. -/
def isValidBuildingPosition (parks : List (List Point)) (x y : ℚ) : Bool :=
  parks.all fun park =>
    park.isEmpty ||
      decide ((6400 : ℚ) ≤ (x - ((park.headD ⟨0, 0⟩).x : ℚ)) ^ 2
        + (y - ((park.headD ⟨0, 0⟩).y : ℚ)) ^ 2)

/-- One drawn building candidate of `CityGenerator::generateBuildings`:
position, footprint, the `typeDist` roll and the height roll in `[0, 1)`. -/
structure BCand where
  x : ℚ
  y : ℚ
  w : ℚ
  d : ℚ
  t : Nat
  h : ℚ
deriving DecidableEq, Repr

/-- The skyline-type switch of `CityGenerator::generateBuildings`:
building type and height (`a + u * (b - a)` embeds a `[a, b)` uniform
draw `u ∈ [0, 1)`). -/
def pickTypeHeight : SkylineType → Nat → ℚ → BuildingType × ℚ
  | .LOW_RISE, _, u => (.LOW_RISE, 10 + u * 20)
  | .MID_RISE, _, u => (.MID_RISE, 40 + u * 60)
  | .MIXED, t, u =>
    if t = 0 then (.LOW_RISE, 10 + u * 20)
    else if t = 1 then (.MID_RISE, 40 + u * 60)
    else (.HIGH_RISE, 120 + u * 130)
  | .SKYSCRAPER, t, u =>
    if t ≤ 1 then (.HIGH_RISE, 120 + u * 130)
    else (.MID_RISE, 40 + u * 60)

/-- The `while (buildings.size() < numBuildings && attempts < maxAttempts)`
loop of `CityGenerator::generateBuildings`; `fuel` is the remaining
attempt budget and `a` numbers the attempt for the candidate stream. -/
def generateBuildingsAux (B : Nat) (parks : List (List Point)) (sky : SkylineType)
    (cand : Nat → BCand) : Nat → Nat → List Building → List Building
  | 0, _, acc => acc
  | fuel + 1, a, acc =>
    if acc.length < B then
      if isValidBuildingPosition parks (cand a).x (cand a).y then
        generateBuildingsAux B parks sky cand fuel (a + 1)
          (acc ++ [⟨(cand a).x, (cand a).y, (cand a).w, (cand a).d,
            (pickTypeHeight sky ((cand a).t % 3) (cand a).h).2,
            (pickTypeHeight sky ((cand a).t % 3) (cand a).h).1⟩])
      else generateBuildingsAux B parks sky cand fuel (a + 1) acc
    else acc

/-- `CityGenerator::generateBuildings`: up to `10 * numBuildings` attempts
to place `numBuildings` buildings (early return when the count is 0). -/
def generateBuildings (cfg : CityConfig) (parks : List (List Point))
    (cand : Nat → BCand) : List Building :=
  if cfg.numBuildings = 0 then []
  else
    generateBuildingsAux cfg.numBuildings parks cfg.skylineType cand
      (10 * cfg.numBuildings) 0 []

/-- `CityGenerator::generateCity`: `cityData.clear()` (which empties every
list including the dedicated `fountain` field and makes the result
independent of the previous state), then roads, parks and buildings.  The
generated fountain circle goes into the `parks` list only; the `fountain`
field is never repopulated.  The result is `none` exactly when road
generation crashes. -/
def generateCity (spokeEnd nodePos : Nat → Point) (ndraws : Nat → Nat)
    (ppos : Nat → Point) (cand : Nat → BCand) (cfg : CityConfig) (W H : Int) :
    Option CityData :=
  match generateRoads spokeEnd nodePos ndraws cfg W H with
  | none => none
  | some roads =>
    let parks := generateParks cfg W H ppos
    some ⟨roads, parks, [], generateBuildings cfg parks cand, true⟩

/-- C6: with `numParks = P ≥ 1` every drawn park position is accepted
as-is (element `i` of the park list is exactly the circle rasterized at
drawn position `i`, for every position stream — no collision check), and
when `fountainRadius > 0` exactly one extra circle rasterized at the
canvas center `(W/2, H/2)` is appended as the last element of the same
list, so the list length is `P + 1` when `fountainRadius > 0` and `P`
otherwise. -/
theorem generateParks_spec (cfg : CityConfig) (W H : Int) (ppos : Nat → Point)
    (hP : 1 ≤ cfg.numParks) :
    (generateParks cfg W H ppos).length
        = cfg.numParks + (if 0 < cfg.fountainRadius then 1 else 0)
    ∧ (0 < cfg.fountainRadius →
        (generateParks cfg W H ppos).getLast?
          = some (midpointCircle (W / 2) (H / 2) cfg.fountainRadius))
    ∧ ∀ i : Nat, i < cfg.numParks →
        (generateParks cfg W H ppos).getD i []
          = midpointCircle (ppos i).x (ppos i).y cfg.parkRadius := by
  have hP0 : cfg.numParks ≠ 0 := by omega
  refine ⟨?_, ?_, ?_⟩
  · by_cases hf : 0 < cfg.fountainRadius <;> simp [generateParks, hP0, hf]
  · intro hf
    simp [generateParks, hP0, hf, List.getLast?_append]
  · intro i hiP
    simp only [generateParks, if_neg hP0]
    by_cases hf : 0 < cfg.fountainRadius
    · rw [if_pos hf, List.getD_eq_getElem?_getD,
        List.getElem?_append_left (by simpa using hiP),
        List.getElem?_map, List.getElem?_range hiP]
      rfl
    · rw [if_neg hf, List.append_nil, List.getD_eq_getElem?_getD,
        List.getElem?_map, List.getElem?_range hiP]
      rfl

/-- Configuration used by the park witness: 3 parks, fountain radius 25. -/
def cfgParks : CityConfig :=
  ⟨0, 1, .GRID, 8, .MIXED, 40, 3, 25, 30, 30⟩

/-- Witness for C6: 3 parks and a radius-25 fountain on the 800×600
canvas (the fountain is appended last, centered at (400, 300)). -/
theorem generateParks_spec_witness :
    (generateParks cfgParks 800 600 (fun _ => ⟨200, 200⟩)).length
        = cfgParks.numParks + (if 0 < cfgParks.fountainRadius then 1 else 0)
    ∧ (0 < cfgParks.fountainRadius →
        (generateParks cfgParks 800 600 (fun _ => ⟨200, 200⟩)).getLast?
          = some (midpointCircle (800 / 2) (600 / 2) cfgParks.fountainRadius))
    ∧ ∀ i : Nat, i < cfgParks.numParks →
        (generateParks cfgParks 800 600 (fun _ => ⟨200, 200⟩)).getD i []
          = midpointCircle ((200 : Int)) ((200 : Int)) cfgParks.parkRadius :=
  generateParks_spec cfgParks 800 600 (fun _ => ⟨200, 200⟩) (by decide)

/-- The attempt loop never exceeds the requested count. -/
theorem generateBuildingsAux_length_le (B : Nat) (parks : List (List Point))
    (sky : SkylineType) (cand : Nat → BCand) :
    ∀ (fuel a : Nat) (acc : List Building), acc.length ≤ B →
      (generateBuildingsAux B parks sky cand fuel a acc).length ≤ B := by
  intro fuel
  induction fuel with
  | zero => intro a acc h; simpa [generateBuildingsAux] using h
  | succ fuel ih =>
    intro a acc h
    rw [generateBuildingsAux]
    by_cases hlt : acc.length < B
    · rw [if_pos hlt]
      cases hv : isValidBuildingPosition parks (cand a).x (cand a).y
      · simp only [Bool.false_eq_true, if_neg]
        exact ih (a + 1) acc h
      · simp only [if_pos]
        exact ih (a + 1) _ (by simp; omega)
    · rw [if_neg hlt]
      exact h

/-- When every candidate is valid the loop fills the quota exactly (given
enough fuel). -/
theorem generateBuildingsAux_all_valid (B : Nat) (parks : List (List Point))
    (sky : SkylineType) (cand : Nat → BCand)
    (hall : ∀ a : Nat, isValidBuildingPosition parks (cand a).x (cand a).y = true) :
    ∀ (fuel a : Nat) (acc : List Building), acc.length ≤ B → B ≤ acc.length + fuel →
      (generateBuildingsAux B parks sky cand fuel a acc).length = B := by
  intro fuel
  induction fuel with
  | zero =>
    intro a acc h1 h2
    rw [generateBuildingsAux]
    omega
  | succ fuel ih =>
    intro a acc h1 h2
    rw [generateBuildingsAux]
    by_cases hlt : acc.length < B
    · rw [if_pos hlt, hall a]
      simp only [if_pos]
      exact ih (a + 1) _ (by simp; omega) (by simp; omega)
    · rw [if_neg hlt]
      omega

/-- C2: automatic building generation accepts a candidate exactly when its
center is at straight-line distance ≥ 80 from the first boundary point of
every nonempty park (no other check), always terminates with at most the
requested count, and reaches the requested count whenever every candidate
is valid (it stops as soon as the count is reached); a shortfall is simply
the returned shorter list. -/
theorem generateBuildings_spec (cfg : CityConfig) (parks : List (List Point))
    (cand : Nat → BCand) (hB : 1 ≤ cfg.numBuildings) :
    (generateBuildings cfg parks cand).length ≤ cfg.numBuildings
    ∧ (∀ x y : ℚ, isValidBuildingPosition parks x y = true ↔
        ∀ park ∈ parks, park ≠ [] →
          (6400 : ℚ) ≤ (x - ((park.headD ⟨0, 0⟩).x : ℚ)) ^ 2
            + (y - ((park.headD ⟨0, 0⟩).y : ℚ)) ^ 2)
    ∧ ((∀ a : Nat, isValidBuildingPosition parks (cand a).x (cand a).y = true) →
        (generateBuildings cfg parks cand).length = cfg.numBuildings) := by
  have hB0 : cfg.numBuildings ≠ 0 := by omega
  refine ⟨?_, ?_, ?_⟩
  · simp only [generateBuildings, if_neg hB0]
    exact generateBuildingsAux_length_le _ _ _ _ _ _ _ (by simp)
  · intro x y
    simp only [isValidBuildingPosition, List.all_eq_true, Bool.or_eq_true,
      List.isEmpty_iff, decide_eq_true_eq]
    exact forall_congr' fun park => forall_congr' fun _ => or_iff_not_imp_left
  · intro hall
    simp only [generateBuildings, if_neg hB0]
    exact generateBuildingsAux_all_valid _ _ _ _ hall _ _ _ (by simp) (by simp; omega)

/-- Configuration used by the building-generation witness: 2 requested
buildings. -/
def cfgBuild : CityConfig :=
  ⟨2, 1, .GRID, 8, .MIXED, 40, 3, 25, 30, 30⟩

/-- Witness for C2: two buildings requested with no parks (every candidate
valid). -/
theorem generateBuildings_spec_witness :
    (generateBuildings cfgBuild [] (fun _ => ⟨120, 120, 20, 20, 0, 0⟩)).length
        ≤ cfgBuild.numBuildings
    ∧ (∀ x y : ℚ, isValidBuildingPosition [] x y = true ↔
        ∀ park ∈ ([] : List (List Point)), park ≠ [] →
          (6400 : ℚ) ≤ (x - ((park.headD ⟨0, 0⟩).x : ℚ)) ^ 2
            + (y - ((park.headD ⟨0, 0⟩).y : ℚ)) ^ 2)
    ∧ ((∀ a : Nat, isValidBuildingPosition []
          ((fun _ => (⟨120, 120, 20, 20, 0, 0⟩ : BCand)) a).x
          ((fun _ => (⟨120, 120, 20, 20, 0, 0⟩ : BCand)) a).y = true) →
        (generateBuildings cfgBuild [] (fun _ => ⟨120, 120, 20, 20, 0, 0⟩)).length
          = cfgBuild.numBuildings) :=
  generateBuildings_spec cfgBuild [] (fun _ => ⟨120, 120, 20, 20, 0, 0⟩) (by decide)

/-- C10: whatever the configuration and draws, a successful `generateCity`
leaves the dedicated `CityData.fountain` field empty — `clear()` empties
it and the generated fountain circle is appended only to the parks list —
so any consumer reading this field after automatic generation sees an
empty list (and an empty fountain list never tests as colliding or
blocking). -/
theorem generateCity_fountain_empty (spokeEnd nodePos : Nat → Point)
    (ndraws : Nat → Nat) (ppos : Nat → Point) (cand : Nat → BCand)
    (cfg : CityConfig) (W H : Int) (cd : CityData)
    (h : generateCity spokeEnd nodePos ndraws ppos cand cfg W H = some cd) :
    cd.fountain = [] := by
  unfold generateCity at h
  cases hr : generateRoads spokeEnd nodePos ndraws cfg W H with
  | none => rw [hr] at h; exact absurd h (by simp)
  | some roads =>
    rw [hr] at h
    simp only [Option.some.injEq] at h
    rw [← h]

/-- Configuration used by the generate-city witness. -/
def cfgCity : CityConfig :=
  ⟨0, 1, .GRID, 8, .MIXED, 40, 0, 25, 30, 30⟩

/-- The concrete city produced by the witness configuration. -/
def cdCity : CityData :=
  (generateCity (fun _ => ⟨0, 0⟩) (fun _ => ⟨0, 0⟩) (fun _ => 0) (fun _ => ⟨0, 0⟩)
    (fun _ => ⟨120, 120, 20, 20, 0, 0⟩) cfgCity 110 120).getD ⟨[], [], [], [], false⟩

/-- Witness for C10: the concrete generated city has an empty fountain
field. -/
theorem generateCity_fountain_empty_witness : cdCity.fountain = [] :=
  generateCity_fountain_empty (fun _ => ⟨0, 0⟩) (fun _ => ⟨0, 0⟩) (fun _ => 0)
    (fun _ => ⟨0, 0⟩) (fun _ => ⟨120, 120, 20, 20, 0, 0⟩) cfgCity 110 120 cdCity
    (by decide)

/-! ## Traffic system (`traffic_generator.cpp`) -/

/-- A vehicle (struct `Car` of `traffic_generator.h`); the display color
is embedded as the palette index chosen by `getRandomCarColor`. -/
structure Car where
  x : ℚ
  y : ℚ
  vx : ℚ
  vy : ℚ
  speed : ℚ
  roadIndex : Nat
  roadProgress : ℚ
  color : Nat
deriving DecidableEq, Repr

/-- `TrafficGenerator::isInsideCircle`: the *traffic* center/radius
recomputation — bounding-box midpoint as center and half the horizontal
extent as radius (unlike the centroid/max-distance recomputation of the
placement validator). -/
def isInsideCircleT (x y : ℚ) (pts : List Point) : Bool :=
  match pts with
  | [] => false
  | p :: rest =>
    let minX : Int := rest.foldl (fun m q => min m q.x) p.x
    let maxX : Int := rest.foldl (fun m q => max m q.x) p.x
    let minY : Int := rest.foldl (fun m q => min m q.y) p.y
    let maxY : Int := rest.foldl (fun m q => max m q.y) p.y
    let cx : ℚ := ((minX : ℚ) + (maxX : ℚ)) / 2
    let cy : ℚ := ((minY : ℚ) + (maxY : ℚ)) / 2
    let r : ℚ := ((maxX : ℚ) - (minX : ℚ)) / 2
    decide (((x - cx) ^ 2 + (y - cy) ^ 2 : ℚ) ≤ (r ^ 2 : ℚ))

/-- The `static_cast<int>(u * n)`-then-clamp index computation used for
road and point selection (`u ≥ 0` in every reachable use, so the C++
truncation is the floor). -/
def clampIdx (q : ℚ) (n : Nat) : Nat :=
  let i := (⌊q⌋).toNat
  if n ≤ i then n - 1 else i

/-- `TrafficGenerator::getRandomCarColor`: index into the 8-entry palette. -/
def colorIdx (u : ℚ) : Nat :=
  let i := (⌊u * 8⌋).toNat
  if 8 ≤ i then 7 else i

/-- `List.getD` at an in-range index is a member of the list. -/
theorem getD_mem {α : Type} (l : List α) (i : Nat) (d : α) (h : i < l.length) :
    l.getD i d ∈ l := by
  rw [List.getD_eq_getElem?_getD, List.getElem?_eq_getElem h]
  exact List.getElem_mem h

/-- A clamped index is always in range. -/
theorem clampIdx_lt (q : ℚ) (n : Nat) (h : 0 < n) : clampIdx q n < n := by
  unfold clampIdx
  by_cases hc : n ≤ (⌊q⌋).toNat
  · rw [if_pos hc]; omega
  · rw [if_neg hc]; omega

/-- One spawn attempt of `TrafficGenerator::generateTraffic`: a random
road, a random progress resolved to a road point, rejection (`none`) when
the point is outside the 50-unit margin or inside any park/fountain
circle, velocity toward the next road point.  The four `dist01` draws of
attempt `a` are `d (4a)` (road), `d (4a+1)` (progress), `d (4a+2)`
(speed) and `d (4a+3)` (color).  A drawn road with an empty point list is
pushed as a zero-velocity car at the origin without any check, exactly as
in the source. -/
def spawnCar (rsqrt : ℚ → ℚ) (roads : List Road) (parks : List (List Point))
    (fountain : List Point) (W H : Int) (d : Nat → ℚ) (a : Nat) : Option Car :=
  let ri := clampIdx (d (4 * a) * roads.length) roads.length
  let road := roads.getD ri dummyRoad
  let prog := d (4 * a + 1)
  if road.points = [] then
    some ⟨0, 0, 0, 0, 0, ri, prog, colorIdx (d (4 * a + 3))⟩
  else
    let len := road.points.length
    let pi := clampIdx (prog * ((len : ℚ) - 1)) len
    let pt := road.points.getD pi ⟨0, 0⟩
    if (pt.x : ℚ) < 50 ∨ (W : ℚ) - 50 < (pt.x : ℚ) ∨
        (pt.y : ℚ) < 50 ∨ (H : ℚ) - 50 < (pt.y : ℚ) then none
    else if (parks.any fun park => isInsideCircleT (pt.x : ℚ) (pt.y : ℚ) park) ||
        isInsideCircleT (pt.x : ℚ) (pt.y : ℚ) fountain then none
    else if pi < len - 1 then
      let nxt := road.points.getD (pi + 1) ⟨0, 0⟩
      let dx : ℚ := ((nxt.x : ℚ) - (pt.x : ℚ))
      let dy : ℚ := ((nxt.y : ℚ) - (pt.y : ℚ))
      let lenQ := rsqrt (dx ^ 2 + dy ^ 2)
      if 0 < lenQ then
        let speed := 20 + d (4 * a + 2) * 30
        some ⟨(pt.x : ℚ), (pt.y : ℚ), dx / lenQ * speed, dy / lenQ * speed, speed,
          ri, prog, colorIdx (d (4 * a + 3))⟩
      else
        some ⟨(pt.x : ℚ), (pt.y : ℚ), 0, 0, 0, ri, prog, colorIdx (d (4 * a + 3))⟩
    else
      some ⟨(pt.x : ℚ), (pt.y : ℚ), 0, 0, 0, ri, prog, colorIdx (d (4 * a + 3))⟩

/-- The spawn loop of `TrafficGenerator::generateTraffic`
(`for (i = 0; i < numCars && attemptedCars < numCars * 3; i++)` with
`i--` on rejection): `fuel` is the remaining attempt budget, `a` numbers
the attempt. -/
def genTrafficAux (rsqrt : ℚ → ℚ) (roads : List Road) (parks : List (List Point))
    (fountain : List Point) (W H : Int) (numCars : Nat) (d : Nat → ℚ) :
    Nat → Nat → List Car → List Car
  | 0, _, acc => acc
  | fuel + 1, a, acc =>
    if acc.length < numCars then
      match spawnCar rsqrt roads parks fountain W H d a with
      | none => genTrafficAux rsqrt roads parks fountain W H numCars d fuel (a + 1) acc
      | some c =>
        genTrafficAux rsqrt roads parks fountain W H numCars d fuel (a + 1) (acc ++ [c])
    else acc

/-- `TrafficGenerator::generateTraffic`: replaces the car population; early
return on an empty road list or a nonpositive request, otherwise at most
`3 * numCars` spawn attempts. -/
def generateTraffic (rsqrt : ℚ → ℚ) (roads : List Road) (numCars : Nat)
    (parks : List (List Point)) (fountain : List Point) (W H : Int) (d : Nat → ℚ) :
    List Car :=
  if roads.isEmpty || numCars == 0 then []
  else genTrafficAux rsqrt roads parks fountain W H numCars d (3 * numCars) 0 []

/-- The per-car well-formedness properties of a spawned car: valid road
index, progress in `[0, 1]`, position equal to a point of the indexed
road, inside the 50-unit screen margin, and outside every park/fountain
circle. -/
def carOK (roads : List Road) (parks : List (List Point)) (fountain : List Point)
    (W H : Int) (c : Car) : Prop :=
  c.roadIndex < roads.length ∧ 0 ≤ c.roadProgress ∧ c.roadProgress ≤ 1 ∧
  (∃ pt ∈ (roads.getD c.roadIndex dummyRoad).points, c.x = (pt.x : ℚ) ∧ c.y = (pt.y : ℚ)) ∧
  (50 : ℚ) ≤ c.x ∧ c.x ≤ (W : ℚ) - 50 ∧ (50 : ℚ) ≤ c.y ∧ c.y ≤ (H : ℚ) - 50 ∧
  (∀ park ∈ parks, isInsideCircleT c.x c.y park = false) ∧
  isInsideCircleT c.x c.y fountain = false

/-- Every successfully spawned car is well formed (given nonempty roads
with nonempty point lists and draws in `[0, 1)`). -/
theorem spawnCar_sound (rsqrt : ℚ → ℚ) (roads : List Road) (parks : List (List Point))
    (fountain : List Point) (W H : Int) (d : Nat → ℚ) (a : Nat) (c : Car)
    (hroads : roads ≠ []) (hpts : ∀ r ∈ roads, r.points ≠ [])
    (hd : ∀ k, 0 ≤ d k ∧ d k < 1)
    (h : spawnCar rsqrt roads parks fountain W H d a = some c) :
    carOK roads parks fountain W H c := by
  have hrl : 0 < roads.length := List.length_pos.mpr hroads
  have hri : clampIdx (d (4 * a) * roads.length) roads.length < roads.length :=
    clampIdx_lt _ _ hrl
  have hmem : roads.getD (clampIdx (d (4 * a) * roads.length) roads.length) dummyRoad
      ∈ roads := getD_mem _ _ _ hri
  have hne : (roads.getD (clampIdx (d (4 * a) * roads.length) roads.length)
      dummyRoad).points ≠ [] := hpts _ hmem
  have hpl : 0 < (roads.getD (clampIdx (d (4 * a) * roads.length) roads.length)
      dummyRoad).points.length := List.length_pos.mpr hne
  simp only [spawnCar, if_neg hne] at h
  have hpi := clampIdx_lt (d (4 * a + 1) *
    (((roads.getD (clampIdx (d (4 * a) * roads.length) roads.length)
      dummyRoad).points.length : ℚ) - 1))
    ((roads.getD (clampIdx (d (4 * a) * roads.length) roads.length)
      dummyRoad).points.length) hpl
  have hptmem : (roads.getD (clampIdx (d (4 * a) * roads.length) roads.length)
        dummyRoad).points.getD (clampIdx (d (4 * a + 1) *
          (((roads.getD (clampIdx (d (4 * a) * roads.length) roads.length)
            dummyRoad).points.length : ℚ) - 1))
          ((roads.getD (clampIdx (d (4 * a) * roads.length) roads.length)
            dummyRoad).points.length)) ⟨0, 0⟩
      ∈ (roads.getD (clampIdx (d (4 * a) * roads.length) roads.length)
        dummyRoad).points := getD_mem _ _ _ hpi
  split at h
  · exact absurd h (by simp)
  · split at h
    · exact absurd h (by simp)
    · have hprog := hd (4 * a + 1)
      rename_i hmargin hobs
      push_neg at hmargin
      simp only [Bool.not_eq_true, Bool.or_eq_false_iff] at hobs
      split at h
      · split at h
        · rw [Option.some.injEq] at h
          subst h
          refine ⟨hri, hprog.1, le_of_lt hprog.2, ⟨_, hptmem, rfl, rfl⟩,
            hmargin.1, hmargin.2.1, hmargin.2.2.1, hmargin.2.2.2, ?_, hobs.2⟩
          intro park hpark
          have := List.any_eq_false.mp hobs.1 park hpark
          simpa using this
        · rw [Option.some.injEq] at h
          subst h
          refine ⟨hri, hprog.1, le_of_lt hprog.2, ⟨_, hptmem, rfl, rfl⟩,
            hmargin.1, hmargin.2.1, hmargin.2.2.1, hmargin.2.2.2, ?_, hobs.2⟩
          intro park hpark
          have := List.any_eq_false.mp hobs.1 park hpark
          simpa using this
      · rw [Option.some.injEq] at h
        subst h
        refine ⟨hri, hprog.1, le_of_lt hprog.2, ⟨_, hptmem, rfl, rfl⟩,
          hmargin.1, hmargin.2.1, hmargin.2.2.1, hmargin.2.2.2, ?_, hobs.2⟩
        intro park hpark
        have := List.any_eq_false.mp hobs.1 park hpark
        simpa using this

/-- The spawn loop never exceeds the requested car count. -/
theorem genTrafficAux_length_le (rsqrt : ℚ → ℚ) (roads : List Road)
    (parks : List (List Point)) (fountain : List Point) (W H : Int) (numCars : Nat)
    (d : Nat → ℚ) :
    ∀ (fuel a : Nat) (acc : List Car), acc.length ≤ numCars →
      (genTrafficAux rsqrt roads parks fountain W H numCars d fuel a acc).length
        ≤ numCars := by
  intro fuel
  induction fuel with
  | zero => intro a acc h; simpa [genTrafficAux] using h
  | succ fuel ih =>
    intro a acc h
    rw [genTrafficAux]
    by_cases hlt : acc.length < numCars
    · rw [if_pos hlt]
      cases hs : spawnCar rsqrt roads parks fountain W H d a with
      | none => exact ih _ _ h
      | some c => exact ih _ _ (by simp; omega)
    · rw [if_neg hlt]
      exact h

/-- The spawn loop only ever appends well-formed cars. -/
theorem genTrafficAux_sound (rsqrt : ℚ → ℚ) (roads : List Road)
    (parks : List (List Point)) (fountain : List Point) (W H : Int) (numCars : Nat)
    (d : Nat → ℚ) (hroads : roads ≠ []) (hpts : ∀ r ∈ roads, r.points ≠ [])
    (hd : ∀ k, 0 ≤ d k ∧ d k < 1) :
    ∀ (fuel a : Nat) (acc : List Car),
      (∀ c ∈ acc, carOK roads parks fountain W H c) →
      ∀ c ∈ genTrafficAux rsqrt roads parks fountain W H numCars d fuel a acc,
        carOK roads parks fountain W H c := by
  intro fuel
  induction fuel with
  | zero =>
    intro a acc hacc c hc
    exact hacc c (by simpa [genTrafficAux] using hc)
  | succ fuel ih =>
    intro a acc hacc c hc
    rw [genTrafficAux] at hc
    by_cases hlt : acc.length < numCars
    · rw [if_pos hlt] at hc
      cases hs : spawnCar rsqrt roads parks fountain W H d a with
      | none =>
        rw [hs] at hc
        exact ih _ _ hacc c hc
      | some c2 =>
        rw [hs] at hc
        refine ih _ _ ?_ c hc
        intro c3 hc3
        rcases List.mem_append.mp hc3 with h3 | h3
        · exact hacc c3 h3
        · rw [List.mem_singleton] at h3
          rw [h3]
          exact spawnCar_sound rsqrt roads parks fountain W H d a c2 hroads hpts hd hs
    · rw [if_neg hlt] at hc
      exact hacc c hc

/-- With no park or fountain obstacles and every road point inside the
screen margin, every spawn attempt succeeds. -/
theorem spawnCar_isSome (rsqrt : ℚ → ℚ) (roads : List Road) (W H : Int)
    (d : Nat → ℚ) (a : Nat) (hroads : roads ≠ [])
    (hmarg : ∀ r ∈ roads, ∀ p ∈ r.points,
      (50 : ℚ) ≤ (p.x : ℚ) ∧ (p.x : ℚ) ≤ (W : ℚ) - 50 ∧
      (50 : ℚ) ≤ (p.y : ℚ) ∧ (p.y : ℚ) ≤ (H : ℚ) - 50) :
    (spawnCar rsqrt roads [] [] W H d a).isSome = true := by
  have hrl : 0 < roads.length := List.length_pos.mpr hroads
  have hri := clampIdx_lt (d (4 * a) * roads.length) roads.length hrl
  have hmem := getD_mem roads _ dummyRoad hri
  simp only [spawnCar]
  split
  · simp
  · rename_i hne2
    have hpl : 0 < (roads.getD (clampIdx (d (4 * a) * roads.length) roads.length)
        dummyRoad).points.length := List.length_pos.mpr hne2
    have hpi := clampIdx_lt (d (4 * a + 1) *
      (((roads.getD (clampIdx (d (4 * a) * roads.length) roads.length)
        dummyRoad).points.length : ℚ) - 1))
      ((roads.getD (clampIdx (d (4 * a) * roads.length) roads.length)
        dummyRoad).points.length) hpl
    have hb := hmarg _ hmem _ (getD_mem _ _ ⟨0, 0⟩ hpi)
    split
    · rename_i hcond
      exfalso
      rcases hcond with hcc | hcc | hcc | hcc <;> linarith [hb.1, hb.2.1, hb.2.2.1, hb.2.2.2]
    · split
      · rename_i hobs
        exfalso
        simp [isInsideCircleT] at hobs
      · split
        · split <;> simp
        · simp

/-- With an always-successful spawn the loop fills the quota exactly
(given enough fuel). -/
theorem genTrafficAux_full (rsqrt : ℚ → ℚ) (roads : List Road)
    (parks : List (List Point)) (fountain : List Point) (W H : Int) (numCars : Nat)
    (d : Nat → ℚ)
    (hall : ∀ a : Nat, (spawnCar rsqrt roads parks fountain W H d a).isSome = true) :
    ∀ (fuel a : Nat) (acc : List Car), acc.length ≤ numCars →
      numCars ≤ acc.length + fuel →
      (genTrafficAux rsqrt roads parks fountain W H numCars d fuel a acc).length
        = numCars := by
  intro fuel
  induction fuel with
  | zero =>
    intro a acc h1 h2
    rw [genTrafficAux]
    omega
  | succ fuel ih =>
    intro a acc h1 h2
    rw [genTrafficAux]
    by_cases hlt : acc.length < numCars
    · rw [if_pos hlt]
      cases hs : spawnCar rsqrt roads parks fountain W H d a with
      | none => exact absurd (hall a) (by rw [hs]; simp)
      | some c => exact ih _ _ (by simp; omega) (by simp; omega)
    · rw [if_neg hlt]
      omega

/-- C7 (amended): for a nonempty road list with nonempty point sequences
and draws in `[0, 1)`, every spawned car has a valid road index, progress
in `[0, 1]`, a position equal to a point of its road inside the 50-unit
margin and outside every obstacle circle; the population never exceeds
the request, and it equals the request exactly when there are no
obstacles *and* every road point lies within the margin (spawns can
otherwise be rejected until the `3 × numCars` attempt budget runs out). -/
theorem generateTraffic_spec (rsqrt : ℚ → ℚ) (roads : List Road) (numCars : Nat)
    (parks : List (List Point)) (fountain : List Point) (W H : Int) (d : Nat → ℚ)
    (hroads : roads ≠ []) (hpts : ∀ r ∈ roads, r.points ≠ [])
    (hd : ∀ k, 0 ≤ d k ∧ d k < 1) (hn : 1 ≤ numCars) :
    (generateTraffic rsqrt roads numCars parks fountain W H d).length ≤ numCars
    ∧ (∀ c ∈ generateTraffic rsqrt roads numCars parks fountain W H d,
        carOK roads parks fountain W H c)
    ∧ (parks = [] → fountain = [] →
        (∀ r ∈ roads, ∀ p ∈ r.points,
          (50 : ℚ) ≤ (p.x : ℚ) ∧ (p.x : ℚ) ≤ (W : ℚ) - 50 ∧
          (50 : ℚ) ≤ (p.y : ℚ) ∧ (p.y : ℚ) ≤ (H : ℚ) - 50) →
        (generateTraffic rsqrt roads numCars parks fountain W H d).length = numCars) := by
  have hguard : ¬ ((roads.isEmpty || numCars == 0) = true) := by
    simp [List.isEmpty_iff, hroads]
    omega
  refine ⟨?_, ?_, ?_⟩
  · rw [generateTraffic, if_neg hguard]
    exact genTrafficAux_length_le _ _ _ _ _ _ _ _ _ _ _ (by simp)
  · intro c hc
    rw [generateTraffic, if_neg hguard] at hc
    exact genTrafficAux_sound _ _ _ _ _ _ _ _ hroads hpts hd _ _ _ (by simp) c hc
  · intro hparks hfount hmarg
    subst hparks
    subst hfount
    rw [generateTraffic, if_neg hguard]
    exact genTrafficAux_full _ _ _ _ _ _ _ _
      (fun a => spawnCar_isSome rsqrt roads W H d a hroads hmarg) _ _ _
      (by simp) (by simp; omega)

/-- A spawn stream that always rejects leaves the accumulator unchanged. -/
theorem genTrafficAux_none (rsqrt : ℚ → ℚ) (roads : List Road)
    (parks : List (List Point)) (fountain : List Point) (W H : Int) (numCars : Nat)
    (d : Nat → ℚ)
    (hnone : ∀ a : Nat, spawnCar rsqrt roads parks fountain W H d a = none) :
    ∀ (fuel a : Nat) (acc : List Car),
      genTrafficAux rsqrt roads parks fountain W H numCars d fuel a acc = acc := by
  intro fuel
  induction fuel with
  | zero => intro a acc; rw [genTrafficAux]
  | succ fuel ih =>
    intro a acc
    rw [genTrafficAux, hnone a]
    by_cases hlt : acc.length < numCars
    · rw [if_pos hlt]
      exact ih (a + 1) acc
    · rw [if_neg hlt]

/-- C7 counterexample: requesting 10 cars on a road network with no parks
need not yield 10 cars — a single one-point road at the origin lies
outside the 50-unit margin, every one of the 30 attempts is rejected, and
the final population is empty. -/
theorem generateTraffic_cex :
    ¬ ((generateTraffic (fun _ => 0) [⟨[⟨0, 0⟩], 8⟩] 10 [] [] 800 600
        (fun _ => 0)).length = 10) := by
  have hnone : ∀ a : Nat,
      spawnCar (fun _ => 0) [⟨[⟨0, 0⟩], 8⟩] [] [] 800 600 (fun _ => 0) a = none := by
    intro a
    have hfloor : ((⌊(0 : ℚ) * ((1 : Nat) : ℚ)⌋ : Int)) = 0 := by norm_num
    simp only [spawnCar, List.length_cons, List.length_nil, clampIdx, hfloor]
    norm_num [List.getD]
  rw [generateTraffic, if_neg (by simp),
    genTrafficAux_none _ _ _ _ _ _ _ _ hnone]
  simp

/-- Witness for the amended C7: one car on a two-point interior road. -/
theorem generateTraffic_spec_witness :
    (generateTraffic (fun _ => 0) [⟨[⟨100, 100⟩, ⟨101, 100⟩], 8⟩] 1 [] [] 800 600
        (fun _ => 0)).length ≤ 1
    ∧ (∀ c ∈ generateTraffic (fun _ => 0) [⟨[⟨100, 100⟩, ⟨101, 100⟩], 8⟩] 1 [] [] 800 600
          (fun _ => 0),
        carOK [⟨[⟨100, 100⟩, ⟨101, 100⟩], 8⟩] [] [] 800 600 c)
    ∧ (([] : List (List Point)) = [] → ([] : List Point) = [] →
        (∀ r ∈ [(⟨[⟨100, 100⟩, ⟨101, 100⟩], 8⟩ : Road)], ∀ p ∈ r.points,
          (50 : ℚ) ≤ (p.x : ℚ) ∧ (p.x : ℚ) ≤ ((800 : Int) : ℚ) - 50 ∧
          (50 : ℚ) ≤ (p.y : ℚ) ∧ (p.y : ℚ) ≤ ((600 : Int) : ℚ) - 50) →
        (generateTraffic (fun _ => 0) [⟨[⟨100, 100⟩, ⟨101, 100⟩], 8⟩] 1 [] [] 800 600
          (fun _ => 0)).length = 1) :=
  generateTraffic_spec (fun _ => 0) [⟨[⟨100, 100⟩, ⟨101, 100⟩], 8⟩] 1 [] [] 800 600
    (fun _ => 0) (by decide) (by decide)
    (fun k => ⟨le_refl 0, by norm_num⟩) (by decide)

/-- The obstacle test applied to a car's proposed position in
`TrafficGenerator::updateTraffic`: inside any park circle or the fountain
circle (traffic bounding-box recomputation). -/
def proposedCollides (parks : List (List Point)) (fountain : List Point)
    (x y : ℚ) : Bool :=
  (parks.any fun park => isInsideCircleT x y park) || isInsideCircleT x y fountain

/-- The cruising phase of `TrafficGenerator::updateTraffic` (per car,
before the end-of-road transition handling): integrate velocity; if the
proposed position falls inside an obstacle, keep the old position and
jump `roadProgress` forward by 0.1; in every case `roadProgress`
additionally advances by `(speed / 500) * deltaTime`. -/
def cruiseCar (parks : List (List Point)) (fountain : List Point) (dt : ℚ)
    (car : Car) : Car :=
  let newX := car.x + car.vx * dt
  let newY := car.y + car.vy * dt
  let car1 :=
    if proposedCollides parks fountain newX newY then
      { car with roadProgress := car.roadProgress + 1 / 10 }
    else
      { car with x := newX, y := newY }
  { car1 with roadProgress := car1.roadProgress + car.speed / 500 * dt }

/-- C8: in one cruising tick, a colliding proposed move leaves the
position unchanged and advances progress by `0.1 + (speed/500)·dt`, an
accepted move sets the proposed position and advances progress by exactly
`(speed/500)·dt` — progress advances by `(speed/500)·dt` in both cases —
and velocity, speed and road index are untouched. -/
theorem updateTraffic_cruise_spec (parks : List (List Point)) (fountain : List Point)
    (dt : ℚ) (car : Car) :
    (cruiseCar parks fountain dt car).x =
      (if proposedCollides parks fountain (car.x + car.vx * dt) (car.y + car.vy * dt)
        then car.x else car.x + car.vx * dt)
    ∧ (cruiseCar parks fountain dt car).y =
      (if proposedCollides parks fountain (car.x + car.vx * dt) (car.y + car.vy * dt)
        then car.y else car.y + car.vy * dt)
    ∧ (cruiseCar parks fountain dt car).roadProgress =
      car.roadProgress +
        (if proposedCollides parks fountain (car.x + car.vx * dt) (car.y + car.vy * dt)
          then 1 / 10 else 0) + car.speed / 500 * dt
    ∧ (cruiseCar parks fountain dt car).vx = car.vx
    ∧ (cruiseCar parks fountain dt car).vy = car.vy
    ∧ (cruiseCar parks fountain dt car).speed = car.speed
    ∧ (cruiseCar parks fountain dt car).roadIndex = car.roadIndex := by
  cases hc : proposedCollides parks fountain (car.x + car.vx * dt) (car.y + car.vy * dt) <;>
    simp [cruiseCar, hc]

/-- A concrete car for the cruising-tick witness. -/
def carC8 : Car := ⟨100, 100, 5, 5, 30, 0, 1 / 2, 0⟩

/-- Witness for C8: one cruising tick of a concrete car with no
obstacles. -/
theorem updateTraffic_cruise_spec_witness :
    (cruiseCar [] [] 1 carC8).x =
      (if proposedCollides [] [] (carC8.x + carC8.vx * 1) (carC8.y + carC8.vy * 1)
        then carC8.x else carC8.x + carC8.vx * 1)
    ∧ (cruiseCar [] [] 1 carC8).y =
      (if proposedCollides [] [] (carC8.x + carC8.vx * 1) (carC8.y + carC8.vy * 1)
        then carC8.y else carC8.y + carC8.vy * 1)
    ∧ (cruiseCar [] [] 1 carC8).roadProgress =
      carC8.roadProgress +
        (if proposedCollides [] [] (carC8.x + carC8.vx * 1) (carC8.y + carC8.vy * 1)
          then 1 / 10 else 0) + carC8.speed / 500 * 1
    ∧ (cruiseCar [] [] 1 carC8).vx = carC8.vx
    ∧ (cruiseCar [] [] 1 carC8).vy = carC8.vy
    ∧ (cruiseCar [] [] 1 carC8).speed = carC8.speed
    ∧ (cruiseCar [] [] 1 carC8).roadIndex = carC8.roadIndex :=
  updateTraffic_cruise_spec [] [] 1 carC8

end CityDesigner
